import Mathlib

/-!
Verification of the `langgraph_service` RAG-orchestration pipeline
(`Alejandro-Candela/n8n_langgraph_POC`).

Shallow embedding of:
  * `nodes/pii_filter.py` — regex-based PII detection / sanitization
    (a backtracking matcher for the exact pattern subset used by the code:
    single-character classes under greedy counted repetition, plus word
    boundaries; character classes model the ASCII behaviour of `\d`, `\s`,
    `\w`, `[A-Z]` and the literal classes of the source patterns),
  * `nodes/router.py` — LLM routing with fallback-to-"both",
  * `nodes/databricks_agent.py`, `nodes/azure_agent.py` — retrieval agents
    with retry and mock fallback (backends abstracted as per-attempt
    oracles),
  * `nodes/synthesizer.py` — context merging with fallbacks,
  * `graph.py` / `state.py` — the LangGraph state record (overwrite vs.
    append reducers) and the conditional-edge topology, executed by a
    fueled step function.
-/

namespace LG

/-! ## Regex engine (Python `re` semantics for the used pattern subset) -/

/-- One atom of a source pattern: a word boundary `\b`, or a greedy counted
repetition `C{lo,hi}` of a single-character class (with `hi = none` for an
unbounded `+` / `{n,}`). Every quantifier in the source patterns applies to a
single-character class, so patterns are plain concatenations of atoms. -/
inductive Atom where
  | wb : Atom
  | cls : (Char → Bool) → Nat → Option Nat → Atom

/-- A pattern is a concatenation of atoms. -/
abbrev Pat := List Atom

/-- ASCII model of Python `\w` (used only by `\b`). -/
def isWordChar (c : Char) : Bool := c.isAlpha || c.isDigit || c == '_'

def isWordOpt : Option Char → Bool
  | none => false
  | some c => isWordChar c

/-- `\b` holds between `prev` and `next` iff exactly one side is a word
character (the ends of the string count as non-word). -/
def wbOK (prev next : Option Char) : Bool := isWordOpt prev != isWordOpt next

/-- Length of the maximal leading run of characters satisfying `p`. -/
def runLen (p : Char → Bool) : List Char → Nat
  | [] => 0
  | c :: r => if p c then runLen p r + 1 else 0

/-- Maximal number of characters a greedy class repetition may consume. -/
def maxRun (p : Char → Bool) (hi : Option Nat) (s : List Char) : Nat :=
  match hi with
  | none => runLen p s
  | some h => min (runLen p s) h

/-- `countsDown lo m = [m, m-1, ..., lo]` (empty if `m < lo`): the candidate
consumption counts of a greedy repetition, in backtracking order. -/
def countsDown (lo : Nat) : Nat → List Nat
  | 0 => if lo = 0 then [0] else []
  | m + 1 => if m + 1 < lo then [] else (m + 1) :: countsDown lo m

/-- The character preceding the position reached after consuming `c`
characters of `s` (used for later `\b` checks). -/
def prevAfter (prev : Option Char) (s : List Char) (c : Nat) : Option Char :=
  if c = 0 then prev else s.get? (c - 1)

/-- Backtracking matcher: does `pat` match a prefix of `s` (with `prev` the
character just before `s`)? Returns the unconsumed suffix of the match the
backtracking search finds first — greedy repetitions try larger counts first,
exactly as Python's `re` does for these patterns. -/
def matchPat : Pat → Option Char → List Char → Option (List Char)
  | [], _, s => some s
  | .wb :: rest, prev, s =>
      if wbOK prev s.head? then matchPat rest prev s else none
  | .cls p lo hi :: rest, prev, s =>
      (countsDown lo (maxRun p hi s)).findSome? fun c =>
        matchPat rest (prevAfter prev s c) (s.drop c)

/-- Python `pattern.search`: try the pattern at every position, left to
right, including the position at the end of the string. -/
def searchFrom (pat : Pat) : Option Char → List Char → Bool
  | prev, [] => (matchPat pat prev []).isSome
  | prev, c :: r => (matchPat pat prev (c :: r)).isSome || searchFrom pat (some c) r

/-- Fueled scan for `pattern.sub` (structural recursion on the fuel so the
kernel can evaluate it; one fuel unit per scan step suffices because every
match consumes at least one character). The source patterns cannot match the
empty string, so the (dead) zero-width-match branch skips one character. -/
def subFromFuel (pat : Pat) (tok : List Char) : Nat → Option Char → List Char → List Char
  | 0, _, s => s
  | fuel + 1, prev, s =>
      match s with
      | [] => []
      | c :: r =>
          match matchPat pat prev (c :: r) with
          | some rem =>
              if rem.length < r.length + 1 then
                tok ++ subFromFuel pat tok fuel
                  (prevAfter prev (c :: r) ((c :: r).length - rem.length)) rem
              else
                c :: subFromFuel pat tok fuel (some c) r
          | none => c :: subFromFuel pat tok fuel (some c) r

/-- Python `pattern.sub(tok, ·)`: replace every non-overlapping match,
scanning left to right and resuming after each match. -/
def subFrom (pat : Pat) (tok : List Char) (prev : Option Char) (s : List Char) : List Char :=
  subFromFuel pat tok s.length prev s

/-! ## The five PII patterns of `_PII_PATTERNS` -/

/-- ASCII model of Python `\d`. -/
def isDigitC (c : Char) : Bool := c.isDigit

/-- ASCII model of Python `\s`. -/
def isSpaceC (c : Char) : Bool :=
  c == ' ' || c == '\t' || c == '\n' || c == '\r' || c == '\x0b' || c == '\x0c'

def emailLocalChar (c : Char) : Bool :=
  c.isAlpha || c.isDigit || c == '.' || c == '_' || c == '%' || c == '+' || c == '-'

def emailDomainChar (c : Char) : Bool :=
  c.isAlpha || c.isDigit || c == '.' || c == '-'

def atChar (c : Char) : Bool := c == '@'

def dotChar (c : Char) : Bool := c == '.'

def alphaChar (c : Char) : Bool := c.isAlpha

/-- `[a-zA-Z0-9._%+-]+@[a-zA-Z0-9.-]+\.[a-zA-Z]{2,}` -/
def emailPat : Pat :=
  [.cls emailLocalChar 1 none, .cls atChar 1 (some 1), .cls emailDomainChar 1 none,
   .cls dotChar 1 (some 1), .cls alphaChar 2 none]

def phoneSep (c : Char) : Bool := isSpaceC c || c == '.' || c == '-'

def plusChar (c : Char) : Bool := c == '+'

def lparChar (c : Char) : Bool := c == '('

def rparChar (c : Char) : Bool := c == ')'

/-- `\+?\d{1,3}[\s.-]?\(?\d{2,4}\)?[\s.-]?\d{3,4}[\s.-]?\d{3,4}` -/
def phonePat : Pat :=
  [.cls plusChar 0 (some 1), .cls isDigitC 1 (some 3), .cls phoneSep 0 (some 1),
   .cls lparChar 0 (some 1), .cls isDigitC 2 (some 4), .cls rparChar 0 (some 1),
   .cls phoneSep 0 (some 1), .cls isDigitC 3 (some 4), .cls phoneSep 0 (some 1),
   .cls isDigitC 3 (some 4)]

def ccSep (c : Char) : Bool := isSpaceC c || c == '-'

/-- `\b\d{4}[\s-]?\d{4}[\s-]?\d{4}[\s-]?\d{4}\b` -/
def ccPat : Pat :=
  [.wb, .cls isDigitC 4 (some 4), .cls ccSep 0 (some 1), .cls isDigitC 4 (some 4),
   .cls ccSep 0 (some 1), .cls isDigitC 4 (some 4), .cls ccSep 0 (some 1),
   .cls isDigitC 4 (some 4), .wb]

def upperChar (c : Char) : Bool := 'A' ≤ c && c ≤ 'Z'

/-- `\b\d{2}\s?\d{6}\s?[A-Z]\s?\d{3}\b` -/
def ssnPat : Pat :=
  [.wb, .cls isDigitC 2 (some 2), .cls isSpaceC 0 (some 1), .cls isDigitC 6 (some 6),
   .cls isSpaceC 0 (some 1), .cls upperChar 1 (some 1), .cls isSpaceC 0 (some 1),
   .cls isDigitC 3 (some 3), .wb]

def dChar (c : Char) : Bool := c == 'D' || c == 'd'

def eChar (c : Char) : Bool := c == 'E' || c == 'e'

/-- `\bDE\d{2}\s?\d{4}\s?\d{4}\s?\d{4}\s?\d{4}\s?\d{2}\b` with `IGNORECASE`
(case-insensitivity only affects the literals `D` and `E`). -/
def ibanPat : Pat :=
  [.wb, .cls dChar 1 (some 1), .cls eChar 1 (some 1), .cls isDigitC 2 (some 2),
   .cls isSpaceC 0 (some 1), .cls isDigitC 4 (some 4), .cls isSpaceC 0 (some 1),
   .cls isDigitC 4 (some 4), .cls isSpaceC 0 (some 1), .cls isDigitC 4 (some 4),
   .cls isSpaceC 0 (some 1), .cls isDigitC 4 (some 4), .cls isSpaceC 0 (some 1),
   .cls isDigitC 2 (some 2), .wb]

/-- `_PII_PATTERNS`, in the source dict's insertion order. -/
def PII_PATTERNS : List (String × Pat) :=
  [("email", emailPat), ("phone_international", phonePat), ("credit_card", ccPat),
   ("german_ssn", ssnPat), ("iban_de", ibanPat)]

/-! ## `pii_filter.py` -/

/-- ASCII model of Python `str.lower` (kernel-evaluable, unlike
`String.toLower`). -/
def charLower (c : Char) : Char :=
  if 'A' ≤ c && c ≤ 'Z' then Char.ofNat (c.toNat + 32) else c

def pyLower (s : String) : String := String.mk (s.data.map charLower)

/-- ASCII model of Python `str.upper`. -/
def charUpper (c : Char) : Char :=
  if 'a' ≤ c && c ≤ 'z' then Char.ofNat (c.toNat - 32) else c

def pyUpper (s : String) : String := String.mk (s.data.map charUpper)

/-- ASCII model of Python `str.strip()`: drop leading and trailing
whitespace. -/
def pyStrip (s : String) : String :=
  String.mk (((s.data.dropWhile isSpaceC).reverse.dropWhile isSpaceC).reverse)

/-- `detect_pii`: the category names whose pattern matches somewhere in the
text, in pattern order. -/
def detect_pii (text : String) : List String :=
  PII_PATTERNS.filterMap fun cp =>
    if searchFrom cp.2 none text.data then some cp.1 else none

/-- The replacement token `f"[REDACTED_{pii_type.upper()}]"`. -/
def redactionToken (name : String) : String := "[REDACTED_" ++ pyUpper name ++ "]"

/-- `sanitize_query`: substitute every match of every pattern, one category
pass after another in the dict's insertion order. -/
def sanitize_query (text : String) : String :=
  PII_PATTERNS.foldl
    (fun acc cp => String.mk (subFrom cp.2 (redactionToken cp.1).data none acc.data))
    text

/-! ## `state.py`: the shared state record and its merge semantics

`messages` (append-only conversation history) is written by no node and read
by no node, so it is omitted. `query` is always present in the input state
(the server invokes the graph with it), hence a plain `String`; the fields a
node may still not have written are `Option`s. `sources` and `errors` carry
the `operator.add` reducer (append); every other field overwrites when the
node's partial update contains it. -/

structure AgentState where
  query : String
  route_decision : Option String
  context_silo_a : Option String
  context_silo_b : Option String
  synthesized_answer : Option String
  sources : List String
  errors : List String
  pii_detected : Option Bool
deriving Repr, DecidableEq

/-- A node's partial update: `none` / `[]` means the key is absent from the
returned dict. -/
structure Update where
  query : Option String := none
  route_decision : Option String := none
  context_silo_a : Option String := none
  context_silo_b : Option String := none
  synthesized_answer : Option String := none
  sources : List String := []
  errors : List String := []
  pii_detected : Option Bool := none
deriving Repr, DecidableEq

/-- Merge a partial update into the state: last-write-wins for plain fields,
append for `sources` and `errors`. -/
def applyUpdate (s : AgentState) (u : Update) : AgentState :=
  { query := u.query.getD s.query
    route_decision := u.route_decision.orElse fun _ => s.route_decision
    context_silo_a := u.context_silo_a.orElse fun _ => s.context_silo_a
    context_silo_b := u.context_silo_b.orElse fun _ => s.context_silo_b
    synthesized_answer := u.synthesized_answer.orElse fun _ => s.synthesized_answer
    sources := s.sources ++ u.sources
    errors := s.errors ++ u.errors
    pii_detected := u.pii_detected.orElse fun _ => s.pii_detected }

/-- `pii_filter_node`: sets `pii_detected`; only when detection fired does it
overwrite `query` and append one diagnostic. -/
def pii_filter_node (query : String) : Update :=
  if query = "" then { pii_detected := some false }
  else
    let detected := detect_pii query
    if detected.isEmpty then { pii_detected := some false }
    else
      { query := some (sanitize_query query),
        pii_detected := some true,
        errors := ["PII detected and redacted: " ++ String.intercalate ", " detected] }

/-! ## `router.py` — the LLM call is abstracted as an `Except` oracle
(`.error e` models the call raising exception `e`). -/

def VALID_ROUTES : List String := ["silo_a", "silo_b", "both"]

def router_node (azure_openai_configured : Bool) (llm : Except String String)
    (query : String) : Update :=
  if query = "" then { route_decision := some "both" }
  else if azure_openai_configured = false then { route_decision := some "both" }
  else
    match llm with
    | .ok content =>
        let decision := pyLower (pyStrip content)
        if VALID_ROUTES.contains decision = false then { route_decision := some "both" }
        else { route_decision := some decision }
    | .error e =>
        { route_decision := some "both", errors := ["Router error: " ++ e] }

/-! ## Retry helper shared by both agents

`retryLoop call attempt fuel` runs `call attempt`; on failure it retries
(`fuel` times in total) with increasing attempt numbers, re-raising the last
failure — the shape of the `for attempt in range(1, MAX_RETRIES + 1)` loops
in both agent modules (the backoff sleep has no observable effect). -/

def retryLoop {α : Type} (call : Nat → Except String α) : Nat → Nat → Except String α
  | attempt, 0 => call attempt
  | attempt, fuel + 1 =>
      match call attempt with
      | .ok a => .ok a
      | .error _ => retryLoop call (attempt + 1) fuel

/-! ## `databricks_agent.py` (Silo A) — the vector-search backend is an
oracle from attempt number to either raw result rows or a raised error. -/

namespace DatabricksAgent

def MAX_RETRIES : Nat := 2

def MOCK_CONTEXT : String :=
  "[MOCK DATA - Databricks Vector Search unavailable]\n\nEngineering Document: ML Pipeline Architecture v2.3\n- The system uses a modular pipeline with separate stages for data ingestion,\n  feature engineering, model training, and inference serving.\n- Real-time inference is handled via a gRPC endpoint with <50ms p99 latency.\n- Model artifacts are versioned in MLflow and deployed via Databricks Model Serving.\n\nEngineering Document: Signal Processing Module\n- The DSP module implements a custom FFT-based approach for audio feature extraction.\n- Supports sampling rates from 8kHz to 48kHz with configurable window sizes.\n- Integrates with the ML pipeline via Apache Kafka for streaming inference."

/-- A result row is a list of column values `[content, title, source]`;
missing columns fall back to the defaults the source uses. -/
def ctxLine (row : List String) : String :=
  "[" ++ row.getD 1 "Unknown" ++ "]: " ++ row.getD 0 ""

def srcLine (row : List String) : String :=
  "Databricks/" ++ row.getD 2 "databricks" ++ "/" ++ row.getD 1 "Unknown"

/-- `_query_databricks_vector_search`: bounded-retry query, empty result set
mapped to a fixed "no results" context. -/
def query_vector_search (backend : Nat → Except String (List (List String))) :
    Except String (String × List String) :=
  (retryLoop backend 1 (MAX_RETRIES - 1)).map fun rows =>
    if rows.isEmpty then ("No relevant engineering documents found.", [])
    else (String.intercalate "\n\n" (rows.map ctxLine), rows.map srcLine)

/-- `databricks_agent_node`. -/
def databricks_agent_node (databricks_configured : Bool)
    (backend : Nat → Except String (List (List String))) (query : String) : Update :=
  if query = "" then
    { context_silo_a := some "", errors := ["Databricks agent received empty query"] }
  else if databricks_configured = false then
    { context_silo_a := some MOCK_CONTEXT,
      sources := ["[MOCK] Databricks/ML Pipeline Architecture v2.3",
                  "[MOCK] Databricks/Signal Processing Module"] }
  else
    match query_vector_search backend with
    | .ok (ctx, srcs) => { context_silo_a := some ctx, sources := srcs }
    | .error e =>
        { context_silo_a := some MOCK_CONTEXT,
          sources := ["[MOCK/FALLBACK] Databricks data"],
          errors := ["Databricks agent error (using mock fallback): " ++ e] }

end DatabricksAgent

/-! ## `azure_agent.py` (Silo B) -/

/-- A search hit: the three selected fields, each possibly absent. -/
structure AzRow where
  title : Option String
  chunk : Option String
  parent_id : Option String
deriving Repr, DecidableEq

namespace AzureAgent

def MAX_RETRIES : Nat := 3

def MOCK_CONTEXT : String :=
  "[MOCK DATA - Azure AI Search unavailable]\n\nPatent: US-2024-0112233 - Neural Architecture for Low-Latency Audio Classification\n- A novel neural network architecture optimized for real-time audio event detection\n  on edge devices. Uses depthwise separable convolutions with attention mechanisms.\n- Claims improved accuracy over prior art by 12% while reducing inference time by 40%.\n\nPatent: EP-3987654 - Distributed Feature Engineering Pipeline\n- A system and method for distributed feature computation across heterogeneous\n  data sources with automatic schema reconciliation.\n- Key innovation: lazy materialization of feature vectors with caching at the\n  serving layer to minimize computation during inference."

def ctxLine (r : AzRow) : String :=
  "[" ++ r.title.getD "Unknown Patent" ++ "]: " ++ r.chunk.getD ""

def srcLine (r : AzRow) : String :=
  "Azure/" ++ r.parent_id.getD "azure" ++ "/" ++ r.title.getD "Unknown Patent"

/-- `_query_azure_search`: bounded-retry hybrid query (the embedding call and
the search call are folded into one per-attempt oracle); an empty hit list is
mapped to a fixed "no results" context after formatting. -/
def query_search (backend : Nat → Except String (List AzRow)) :
    Except String (String × List String) :=
  (retryLoop backend 1 (MAX_RETRIES - 1)).map fun rows =>
    if rows.isEmpty then ("No relevant patent documents found.", [])
    else (String.intercalate "\n\n" (rows.map ctxLine), rows.map srcLine)

/-- `azure_agent_node`. -/
def azure_agent_node (azure_search_configured : Bool)
    (backend : Nat → Except String (List AzRow)) (query : String) : Update :=
  if query = "" then
    { context_silo_b := some "", errors := ["Azure agent received empty query"] }
  else if azure_search_configured = false then
    { context_silo_b := some MOCK_CONTEXT,
      sources := ["[MOCK] Azure/US-2024-0112233/Neural Architecture",
                  "[MOCK] Azure/EP-3987654/Distributed Feature Engineering"] }
  else
    match query_search backend with
    | .ok (ctx, srcs) => { context_silo_b := some ctx, sources := srcs }
    | .error e =>
        { context_silo_b := some MOCK_CONTEXT,
          sources := ["[MOCK/FALLBACK] Azure data"],
          errors := ["Azure agent error (using mock fallback): " ++ e] }

end AzureAgent

/-! ## `synthesizer.py` -/

namespace Synthesizer

def EMPTY_MSG : String := "No relevant information found in either data silo."

def fallbackConcat (query context_a context_b : String) : String :=
  "## Query: " ++ query ++ "\n\n"
    ++ (if context_a ≠ "" then "### From Engineering Docs (Silo A)\n" ++ context_a ++ "\n\n" else "")
    ++ (if context_b ≠ "" then "### From Patents (Silo B)\n" ++ context_b ++ "\n\n" else "")

def errorFallback (context_a context_b : String) : String :=
  "[Synthesis error — raw data follows]\n\n"
    ++ (if context_a ≠ "" then "### Silo A\n" ++ context_a ++ "\n\n" else "")
    ++ (if context_b ≠ "" then "### Silo B\n" ++ context_b ++ "\n\n" else "")

/-- `synthesizer_node`: total-empty short-circuit, unconfigured fallback,
single LLM call with error fallback. -/
def synthesizer_node (azure_openai_configured : Bool) (llm : Except String String)
    (query context_a context_b : String) : Update :=
  if context_a = "" ∧ context_b = "" then
    { synthesized_answer := some EMPTY_MSG,
      errors := ["Synthesizer: both silos returned empty context"] }
  else if azure_openai_configured = false then
    { synthesized_answer := some (fallbackConcat query context_a context_b) }
  else
    match llm with
    | .ok content => { synthesized_answer := some content }
    | .error e =>
        { synthesized_answer := some (errorFallback context_a context_b),
          errors := ["Synthesizer error: " ++ e] }

end Synthesizer

/-! ## `graph.py`: topology and execution -/

/-- All external dependencies of one pipeline run: configuration flags and
per-call backend behaviour. -/
structure Env where
  azure_openai_configured : Bool
  router_llm : Except String String
  synth_llm : Except String String
  databricks_configured : Bool
  dbx_backend : Nat → Except String (List (List String))
  azure_search_configured : Bool
  azure_backend : Nat → Except String (List AzRow)

inductive NodeTag where
  | start
  | pii_filter
  | router
  | databricks_agent
  | azure_agent
  | synthesizer
  | finish
deriving Repr, DecidableEq

/-- The conditional-edge function `_route_decision` after the router node. -/
def route_decision_edge (s : AgentState) : String :=
  let decision := s.route_decision.getD "both"
  if decision = "silo_a" then "silo_a_only"
  else if decision = "silo_b" then "silo_b_only"
  else "both_silos"

/-- The post-Silo-A conditional edge (`lambda state: "azure_agent" if
state.get("route_decision") == "both" else "synthesizer"`). -/
def post_silo_a_edge (s : AgentState) : String :=
  if s.route_decision = some "both" then "azure_agent" else "synthesizer"

/-- Run one node's body and merge its partial update (START and END are
virtual and leave the state unchanged). -/
def applyNode (env : Env) (t : NodeTag) (s : AgentState) : AgentState :=
  match t with
  | .start => s
  | .finish => s
  | .pii_filter => applyUpdate s (pii_filter_node s.query)
  | .router => applyUpdate s (router_node env.azure_openai_configured env.router_llm s.query)
  | .databricks_agent =>
      applyUpdate s (DatabricksAgent.databricks_agent_node
        env.databricks_configured env.dbx_backend s.query)
  | .azure_agent =>
      applyUpdate s (AzureAgent.azure_agent_node
        env.azure_search_configured env.azure_backend s.query)
  | .synthesizer =>
      applyUpdate s (Synthesizer.synthesizer_node
        env.azure_openai_configured env.synth_llm s.query
        (s.context_silo_a.getD "") (s.context_silo_b.getD ""))

/-- The edges added by `build_graph`, with both conditional edges evaluated
on the state as updated by the node just executed. The map of the first
conditional edge sends both `"silo_a_only"` and `"both_silos"` to the
Databricks agent. -/
def nextNode (t : NodeTag) (s : AgentState) : NodeTag :=
  match t with
  | .start => .pii_filter
  | .pii_filter => .router
  | .router =>
      match route_decision_edge s with
      | "silo_a_only" => .databricks_agent
      | "silo_b_only" => .azure_agent
      | _ => .databricks_agent
  | .databricks_agent =>
      if post_silo_a_edge s = "azure_agent" then .azure_agent else .synthesizer
  | .azure_agent => .synthesizer
  | .synthesizer => .finish
  | .finish => .finish

/-- Fueled executor: returns the trace of `(node, state-after-node)` pairs. -/
def runFrom (env : Env) : Nat → NodeTag → AgentState → List (NodeTag × AgentState)
  | 0, _, _ => []
  | fuel + 1, t, s =>
      if t = .finish then [(NodeTag.finish, s)]
      else
        let s' := applyNode env t s
        (t, s') :: runFrom env fuel (nextNode t s') s'

/-- The state the server invokes the graph with. -/
def initState (query : String) : AgentState :=
  { query := query, route_decision := none, context_silo_a := none,
    context_silo_b := none, synthesized_answer := none, sources := [],
    errors := [], pii_detected := none }

/-- One full pipeline run (fuel 8 covers the longest path
start → pii → router → dbx → azure → synth → END). -/
def run (env : Env) (query : String) : List (NodeTag × AgentState) :=
  runFrom env 8 .start (initState query)

/-! ## Auxiliary definitions used only by the verification statements -/

/-- `needle` is a prefix of `hay`. -/
def prefixOf : List Char → List Char → Bool
  | [], _ => true
  | _ :: _, [] => false
  | a :: n, b :: h => a == b && prefixOf n h

/-- `needle` occurs contiguously somewhere in `hay` (Python's `in`). -/
def occursIn : List Char → List Char → Bool
  | n, [] => prefixOf n []
  | n, c :: t => prefixOf n (c :: t) || occursIn n t

/-- Python's substring containment `needle in hay`. -/
def strOccursIn (needle hay : String) : Bool := occursIn needle.data hay.data

/-- The character just before position `i`, starting a scan whose position 0
is preceded by `prev`. -/
def prevAtFrom (prev : Option Char) (chars : List Char) (i : Nat) : Option Char :=
  if i = 0 then prev else chars.get? (i - 1)

/-- `pat` matches at (0-based) position `i` of `text`: the formal reading of
"`text` contains a substring the pattern recognizes there". -/
def MatchesAt (pat : Pat) (text : String) (i : Nat) : Prop :=
  i ≤ text.data.length ∧ (matchPat pat (prevAtFrom none text.data i) (text.data.drop i)).isSome

/-- Every successful match of `pat` must consume at least one character
satisfying `p`: some class atom of `pat` has a positive minimum count and
only accepts characters satisfying `p`. -/
def PatNeeds (p : Char → Bool) (pat : Pat) : Prop :=
  ∃ q lo hi, Atom.cls q lo hi ∈ pat ∧ 1 ≤ lo ∧ ∀ c, q c = true → p c = true

/-- A character consumed by any of the five PII patterns' mandatory class:
a digit or `@`. -/
def piiNeed (c : Char) : Bool := c.isDigit || c == '@'

/-- The five redaction tokens, in pattern order. -/
def redactionTokens : List String := PII_PATTERNS.map fun cp => redactionToken cp.1

/-- Lexicographic comparison of character lists (by code point). -/
def charListLe : List Char → List Char → Bool
  | [], _ => true
  | _ :: _, [] => false
  | a :: as, b :: bs =>
      if a.toNat < b.toNat then true
      else if b.toNat < a.toNat then false
      else charListLe as bs

/-- Lexicographic comparison of strings. -/
def strLe (a b : String) : Bool := charListLe a.data b.data

/-- Modelled from the spec: the sanitization order the spec prescribes —
"define pattern application order deterministically — lexicographic by
category name". Identical to `sanitize_query` except that the category
passes run in lexicographic order of category name instead of the source
dict's insertion order. -/
def sanitize_query_lex (text : String) : String :=
  (PII_PATTERNS.insertionSort fun a b => strLe a.1 b.1 = true).foldl
    (fun acc cp => String.mk (subFrom cp.2 (redactionToken cp.1).data none acc.data))
    text

/-- A fixed environment with nothing configured and always-failing backends,
used to instantiate universally quantified theorems at a concrete input. -/
def envNothing : Env :=
  { azure_openai_configured := false
    router_llm := Except.error "router backend down"
    synth_llm := Except.error "synthesis backend down"
    databricks_configured := false
    dbx_backend := fun _ => Except.error "databricks down"
    azure_search_configured := false
    azure_backend := fun _ => Except.error "azure search down" }

/-- A state carrying an out-of-vocabulary route value, used to instantiate
the C10 theorem at a concrete input. -/
def invalidRouteState : AgentState :=
  { initState "q" with route_decision := some "weird" }

/-! # Lemmas and claim theorems -/

/-- If every attempt of `call` fails, the whole retry loop fails (with the
last attempt's error). -/
theorem retryLoop_error {α : Type} (call : Nat → Except String α)
    (h : ∀ n, ∃ e, call n = Except.error e) :
    ∀ fuel attempt, ∃ e, retryLoop call attempt fuel = Except.error e := by
  intro fuel
  induction fuel with
  | zero => intro attempt; exact h attempt
  | succ f ih =>
      intro attempt
      obtain ⟨e, he⟩ := h attempt
      rw [retryLoop, he]
      exact ih (attempt + 1)

/-- C4: the Router yields routeDecision = "both" in each of the four cases:
empty input query; unconfigured text-generation backend; classification call
raises; normalized (trimmed, case-folded) classification result outside the
valid vocabulary. -/
theorem C4_router_defaults_to_both
    (configured : Bool) (llm : Except String String) (query resp : String) :
    (query = "" → (router_node configured llm query).route_decision = some "both")
    ∧ (configured = false → (router_node configured llm query).route_decision = some "both")
    ∧ (∀ e, llm = Except.error e → (router_node configured llm query).route_decision = some "both")
    ∧ (llm = Except.ok resp → VALID_ROUTES.contains (pyLower (pyStrip resp)) = false →
        (router_node configured llm query).route_decision = some "both") := by
  refine ⟨fun hq => ?_, fun hc => ?_, fun e he => ?_, fun hok hbad => ?_⟩
  · simp [router_node, hq]
  · by_cases hq : query = "" <;> simp [router_node, hq, hc]
  · subst he
    by_cases hq : query = "" <;> by_cases hc : configured <;>
      simp [router_node, hq, hc]
  · subst hok
    have hbad' : pyLower (pyStrip resp) ∉ VALID_ROUTES := by simpa using hbad
    by_cases hq : query = "" <;> by_cases hc : configured <;>
      simp [router_node, hq, hc, hbad']

/-- Witness for C4: each of the four fallback cases at a concrete input. -/
theorem C4_router_defaults_to_both_witness :
    (router_node true (Except.ok "silo_a") "").route_decision = some "both"
    ∧ (router_node false (Except.ok "silo_a") "what").route_decision = some "both"
    ∧ (router_node true (Except.error "boom") "what").route_decision = some "both"
    ∧ (router_node true (Except.ok "gibberish") "what").route_decision = some "both" :=
  ⟨(C4_router_defaults_to_both true (Except.ok "silo_a") "" "silo_a").1 rfl,
   (C4_router_defaults_to_both false (Except.ok "silo_a") "what" "silo_a").2.1 rfl,
   (C4_router_defaults_to_both true (Except.error "boom") "what" "x").2.2.1 "boom" rfl,
   (C4_router_defaults_to_both true (Except.ok "gibberish") "what" "gibberish").2.2.2 rfl
     (by decide)⟩

/-- C5: with both silo contexts empty the Synthesizer short-circuits to the
fixed "nothing found" answer, appends exactly one diagnostic error, and its
result does not depend on the generation backend (no call is made). -/
theorem C5_synthesizer_total_empty
    (configured configured' : Bool) (llm llm' : Except String String)
    (query ca cb : String) (ha : ca = "") (hb : cb = "") :
    (Synthesizer.synthesizer_node configured llm query ca cb).synthesized_answer
        = some "No relevant information found in either data silo."
    ∧ (Synthesizer.synthesizer_node configured llm query ca cb).errors
        = ["Synthesizer: both silos returned empty context"]
    ∧ Synthesizer.synthesizer_node configured llm query ca cb
        = Synthesizer.synthesizer_node configured' llm' query ca cb := by
  subst ha hb
  refine ⟨?_, ?_, ?_⟩ <;> simp [Synthesizer.synthesizer_node, Synthesizer.EMPTY_MSG]

/-- Witness for C5 at a concrete input. -/
theorem C5_synthesizer_total_empty_witness :
    (Synthesizer.synthesizer_node false (Except.error "down") "q" "" "").synthesized_answer
        = some "No relevant information found in either data silo."
    ∧ (Synthesizer.synthesizer_node false (Except.error "down") "q" "" "").errors
        = ["Synthesizer: both silos returned empty context"]
    ∧ Synthesizer.synthesizer_node false (Except.error "down") "q" "" ""
        = Synthesizer.synthesizer_node true (Except.ok "llm answer") "q" "" "" :=
  C5_synthesizer_total_empty false true (Except.error "down") (Except.ok "llm answer")
    "q" "" "" rfl rfl

/-- C8: on a non-empty query with no PII shape the filter's partial update
sets `pii_detected` to false, leaves the `query` key absent (not an identity
overwrite), and appends no diagnostic error. -/
theorem C8_pii_filter_frame (q : String) (hq : q ≠ "") (hclean : detect_pii q = []) :
    (pii_filter_node q).pii_detected = some false
    ∧ (pii_filter_node q).query = none
    ∧ (pii_filter_node q).errors = [] := by
  refine ⟨?_, ?_, ?_⟩ <;> simp [pii_filter_node, hq, hclean]

/-- Witness for C8 at a concrete PII-free query. -/
theorem C8_pii_filter_frame_witness :
    (pii_filter_node "hello world").pii_detected = some false
    ∧ (pii_filter_node "hello world").query = none
    ∧ (pii_filter_node "hello world").errors = [] :=
  C8_pii_filter_frame "hello world" (by decide) (by decide)

/-- Counterexample to C2 as stated: it quantifies over every query, but on
the empty query the empty-query guard runs first, so the unconfigured
Databricks agent returns an empty context, an empty source set, and does
append a diagnostic — contradicting "non-empty substitute context text",
"non-empty set of marked substitute source references" and "no diagnostic in
the unconfigured case". -/
theorem C2_counterexample :
    (DatabricksAgent.databricks_agent_node false (fun _ => Except.error "down") "").context_silo_a
        = some ""
    ∧ (DatabricksAgent.databricks_agent_node false (fun _ => Except.error "down") "").sources = []
    ∧ (DatabricksAgent.databricks_agent_node false (fun _ => Except.error "down") "").errors
        = ["Databricks agent received empty query"] := by
  refine ⟨?_, ?_, ?_⟩ <;> simp [DatabricksAgent.databricks_agent_node]

/-- C2 amended (restricted to non-empty queries): each agent never raises
(it is a total function); unconfigured, it returns the non-empty mock
context and non-empty `[MOCK...]`-marked sources with no diagnostic;
with every backend attempt failing, it returns the non-empty mock context
and a non-empty marked fallback source set and appends exactly one
diagnostic error. -/
theorem C2_agents_degrade_gracefully (q : String) (hq : q ≠ "")
    (dbx : Nat → Except String (List (List String)))
    (hdbx : ∀ n, ∃ e, dbx n = Except.error e)
    (az : Nat → Except String (List AzRow))
    (haz : ∀ n, ∃ e, az n = Except.error e) :
    ((DatabricksAgent.databricks_agent_node false dbx q).context_silo_a
        = some DatabricksAgent.MOCK_CONTEXT
      ∧ DatabricksAgent.MOCK_CONTEXT ≠ ""
      ∧ (DatabricksAgent.databricks_agent_node false dbx q).sources ≠ []
      ∧ (∀ src ∈ (DatabricksAgent.databricks_agent_node false dbx q).sources,
          strOccursIn "[MOCK" src = true)
      ∧ (DatabricksAgent.databricks_agent_node false dbx q).errors = [])
    ∧ ((DatabricksAgent.databricks_agent_node true dbx q).context_silo_a
        = some DatabricksAgent.MOCK_CONTEXT
      ∧ (DatabricksAgent.databricks_agent_node true dbx q).sources
          = ["[MOCK/FALLBACK] Databricks data"]
      ∧ (DatabricksAgent.databricks_agent_node true dbx q).errors.length = 1)
    ∧ ((AzureAgent.azure_agent_node false az q).context_silo_b
        = some AzureAgent.MOCK_CONTEXT
      ∧ AzureAgent.MOCK_CONTEXT ≠ ""
      ∧ (AzureAgent.azure_agent_node false az q).sources ≠ []
      ∧ (∀ src ∈ (AzureAgent.azure_agent_node false az q).sources,
          strOccursIn "[MOCK" src = true)
      ∧ (AzureAgent.azure_agent_node false az q).errors = [])
    ∧ ((AzureAgent.azure_agent_node true az q).context_silo_b
        = some AzureAgent.MOCK_CONTEXT
      ∧ (AzureAgent.azure_agent_node true az q).sources
          = ["[MOCK/FALLBACK] Azure data"]
      ∧ (AzureAgent.azure_agent_node true az q).errors.length = 1) := by
  obtain ⟨ed, hed⟩ := retryLoop_error dbx hdbx (DatabricksAgent.MAX_RETRIES - 1) 1
  obtain ⟨ea, hea⟩ := retryLoop_error az haz (AzureAgent.MAX_RETRIES - 1) 1
  have hqd : DatabricksAgent.query_vector_search dbx = Except.error ed := by
    rw [DatabricksAgent.query_vector_search, hed]; rfl
  have hqa : AzureAgent.query_search az = Except.error ea := by
    rw [AzureAgent.query_search, hea]; rfl
  refine ⟨⟨?_, ?_, ?_, ?_, ?_⟩, ⟨?_, ?_, ?_⟩, ⟨?_, ?_, ?_, ?_, ?_⟩, ⟨?_, ?_, ?_⟩⟩ <;>
    simp [DatabricksAgent.databricks_agent_node, AzureAgent.azure_agent_node, hq, hqd, hqa] <;>
    decide

/-- Witness for C2 amended: concrete non-empty query, concrete always-failing
backends. -/
theorem C2_agents_degrade_gracefully_witness :
    ((DatabricksAgent.databricks_agent_node false (fun _ => Except.error "down") "x").context_silo_a
        = some DatabricksAgent.MOCK_CONTEXT
      ∧ DatabricksAgent.MOCK_CONTEXT ≠ ""
      ∧ (DatabricksAgent.databricks_agent_node false (fun _ => Except.error "down") "x").sources ≠ []
      ∧ (∀ src ∈ (DatabricksAgent.databricks_agent_node false (fun _ => Except.error "down") "x").sources,
          strOccursIn "[MOCK" src = true)
      ∧ (DatabricksAgent.databricks_agent_node false (fun _ => Except.error "down") "x").errors = [])
    ∧ ((DatabricksAgent.databricks_agent_node true (fun _ => Except.error "down") "x").context_silo_a
        = some DatabricksAgent.MOCK_CONTEXT
      ∧ (DatabricksAgent.databricks_agent_node true (fun _ => Except.error "down") "x").sources
          = ["[MOCK/FALLBACK] Databricks data"]
      ∧ (DatabricksAgent.databricks_agent_node true (fun _ => Except.error "down") "x").errors.length = 1)
    ∧ ((AzureAgent.azure_agent_node false (fun _ => Except.error "down") "x").context_silo_b
        = some AzureAgent.MOCK_CONTEXT
      ∧ AzureAgent.MOCK_CONTEXT ≠ ""
      ∧ (AzureAgent.azure_agent_node false (fun _ => Except.error "down") "x").sources ≠ []
      ∧ (∀ src ∈ (AzureAgent.azure_agent_node false (fun _ => Except.error "down") "x").sources,
          strOccursIn "[MOCK" src = true)
      ∧ (AzureAgent.azure_agent_node false (fun _ => Except.error "down") "x").errors = [])
    ∧ ((AzureAgent.azure_agent_node true (fun _ => Except.error "down") "x").context_silo_b
        = some AzureAgent.MOCK_CONTEXT
      ∧ (AzureAgent.azure_agent_node true (fun _ => Except.error "down") "x").sources
          = ["[MOCK/FALLBACK] Azure data"]
      ∧ (AzureAgent.azure_agent_node true (fun _ => Except.error "down") "x").errors.length = 1) :=
  C2_agents_degrade_gracefully "x" (by decide)
    (fun _ => Except.error "down") (fun _ => ⟨"down", rfl⟩)
    (fun _ => Except.error "down") (fun _ => ⟨"down", rfl⟩)

/-- Counterexample to C6 as stated: on an empty query the Router resolves
locally to the default route but appends no diagnostic error, contradicting
"plus an appended diagnostic error" for every query-requiring stage. -/
theorem C6_counterexample :
    (router_node false (Except.error "down") "").route_decision = some "both"
    ∧ (router_node false (Except.error "down") "").errors = [] := by
  refine ⟨?_, ?_⟩ <;> simp [router_node]

/-- Every success of `List.findSome?` comes from some list element. -/
theorem findSome?_some {α β : Type} {f : α → Option β} :
    ∀ {l : List α} {b : β}, l.findSome? f = some b → ∃ a, a ∈ l ∧ f a = some b := by
  intro l
  induction l with
  | nil => intro b h; simp [List.findSome?] at h
  | cons a t ih =>
      intro b h
      rw [List.findSome?] at h
      cases hfa : f a with
      | some v =>
          simp only [hfa] at h
          exact ⟨a, List.mem_cons_self a t, by rw [hfa]; exact h⟩
      | none =>
          simp only [hfa] at h
          obtain ⟨x, hx, hfx⟩ := ih h
          exact ⟨x, List.mem_cons_of_mem a hx, hfx⟩

/-- Candidate counts lie between the repetition's bounds. -/
theorem countsDown_bounds : ∀ {m lo cnt : Nat}, cnt ∈ countsDown lo m → lo ≤ cnt ∧ cnt ≤ m := by
  intro m
  induction m with
  | zero =>
      intro lo cnt h
      by_cases hc : lo = 0
      · rw [countsDown, if_pos hc] at h
        simp at h
        omega
      · rw [countsDown, if_neg hc] at h
        simp at h
  | succ m ih =>
      intro lo cnt h
      by_cases hc : m + 1 < lo
      · rw [countsDown, if_pos hc] at h
        simp at h
      · rw [countsDown, if_neg hc] at h
        rcases List.mem_cons.mp h with h1 | h1
        · subst h1; omega
        · have := ih h1; omega

/-- A positive leading run starts with a character of the class. -/
theorem runLen_pos {q : Char → Bool} {s : List Char} (h : 1 ≤ runLen q s) :
    ∃ c t, s = c :: t ∧ q c = true := by
  cases s with
  | nil => simp [runLen] at h
  | cons c t =>
      by_cases hc : q c = true
      · exact ⟨c, t, rfl, hc⟩
      · rw [runLen, if_neg hc] at h
        omega

theorem maxRun_le_runLen (q : Char → Bool) (hi : Option Nat) (s : List Char) :
    maxRun q hi s ≤ runLen q s := by
  cases hi with
  | none => simp [maxRun]
  | some h => simpa [maxRun] using Nat.min_le_left (runLen q s) h

/-- Soundness of `PatNeeds`: a successful match consumes a character of the
mandatory class, which therefore lies in the input and satisfies `p`. -/
theorem matchPat_needs {p : Char → Bool} :
    ∀ (pat : Pat), PatNeeds p pat →
      ∀ (prev : Option Char) (s r : List Char),
        matchPat pat prev s = some r → ∃ c ∈ s, p c = true := by
  intro pat
  induction pat with
  | nil =>
      intro hneed prev s r _
      obtain ⟨q, lo, hi, hmem, -, -⟩ := hneed
      simp at hmem
  | cons a rest ih =>
      intro hneed prev s r hm
      obtain ⟨q, lo, hi, hmem, hlo, himp⟩ := hneed
      cases a with
      | wb =>
          rw [matchPat] at hm
          split at hm
          · have hrest : Atom.cls q lo hi ∈ rest := by
              rcases List.mem_cons.mp hmem with h1 | h1
              · simp at h1
              · exact h1
            exact ih ⟨q, lo, hi, hrest, hlo, himp⟩ prev s r hm
          · simp at hm
      | cls q0 lo0 hi0 =>
          rw [matchPat] at hm
          obtain ⟨cnt, hcmem, hcall⟩ := findSome?_some hm
          obtain ⟨hclo, hchi⟩ := countsDown_bounds hcmem
          rcases List.mem_cons.mp hmem with h1 | h1
          · injection h1 with hq hlo0 hhi
            subst hq hlo0 hhi
            have hrun : 1 ≤ runLen q s := by
              have := maxRun_le_runLen q hi s
              omega
            obtain ⟨c, t, hs, hqc⟩ := runLen_pos hrun
            exact ⟨c, by rw [hs]; exact List.mem_cons_self c t, himp c hqc⟩
          · obtain ⟨c, hc, hpc⟩ := ih ⟨q, lo, hi, h1, hlo, himp⟩ _ _ _ hcall
            exact ⟨c, List.drop_subset cnt s hc, hpc⟩

/-- A pattern with a mandatory `p`-class cannot match inside `p`-free text. -/
theorem matchPat_eq_none {p : Char → Bool} {pat : Pat} (hneed : PatNeeds p pat)
    {s : List Char} (hs : ∀ c ∈ s, p c = false) (prev : Option Char) :
    matchPat pat prev s = none := by
  cases h : matchPat pat prev s with
  | none => rfl
  | some r =>
      obtain ⟨c, hc, hpc⟩ := matchPat_needs pat hneed prev s r h
      rw [hs c hc] at hpc
      simp at hpc

theorem searchFrom_eq_false {p : Char → Bool} {pat : Pat} (hneed : PatNeeds p pat) :
    ∀ (s : List Char) (prev : Option Char), (∀ c ∈ s, p c = false) →
      searchFrom pat prev s = false := by
  intro s
  induction s with
  | nil =>
      intro prev hs
      rw [searchFrom, matchPat_eq_none hneed hs]
      rfl
  | cons c t ih =>
      intro prev hs
      rw [searchFrom, matchPat_eq_none hneed hs,
        ih (some c) (fun c' hc' => hs c' (List.mem_cons_of_mem c hc'))]
      rfl

theorem subFromFuel_eq_self {p : Char → Bool} {pat : Pat} (hneed : PatNeeds p pat)
    (tok : List Char) :
    ∀ (fuel : Nat) (s : List Char) (prev : Option Char), (∀ c ∈ s, p c = false) →
      subFromFuel pat tok fuel prev s = s := by
  intro fuel
  induction fuel with
  | zero => intro s prev _; rfl
  | succ f ih =>
      intro s prev hs
      cases s with
      | nil => rfl
      | cons c t =>
          simp only [subFromFuel, matchPat_eq_none hneed hs prev]
          rw [ih t (some c) (fun c' hc' => hs c' (List.mem_cons_of_mem c hc'))]

theorem subFrom_eq_self {p : Char → Bool} {pat : Pat} (hneed : PatNeeds p pat)
    (tok : List Char) (s : List Char) (prev : Option Char)
    (hs : ∀ c ∈ s, p c = false) : subFrom pat tok prev s = s :=
  subFromFuel_eq_self hneed tok s.length s prev hs

/-- Each of the five PII patterns has a mandatory class accepting only
digits or `@`. -/
theorem PII_PATTERNS_need : ∀ cp ∈ PII_PATTERNS, PatNeeds piiNeed cp.2 := by
  intro cp hcp
  simp only [PII_PATTERNS, List.mem_cons, List.not_mem_nil, or_false] at hcp
  rcases hcp with h | h | h | h | h <;> subst h
  · exact ⟨atChar, 1, some 1, by simp [emailPat], le_refl 1, fun c hc => by
      simp [atChar] at hc
      simp [piiNeed, hc]⟩
  · exact ⟨isDigitC, 1, some 3, by simp [phonePat], le_refl 1, fun c hc => by
      simp [isDigitC] at hc
      simp [piiNeed, hc]⟩
  · exact ⟨isDigitC, 4, some 4, by simp [ccPat], by omega, fun c hc => by
      simp [isDigitC] at hc
      simp [piiNeed, hc]⟩
  · exact ⟨isDigitC, 2, some 2, by simp [ssnPat], by omega, fun c hc => by
      simp [isDigitC] at hc
      simp [piiNeed, hc]⟩
  · exact ⟨isDigitC, 2, some 2, by simp [ibanPat], by omega, fun c hc => by
      simp [isDigitC] at hc
      simp [piiNeed, hc]⟩

/-- One sanitization pass leaves digit-free, `@`-free text unchanged;
iterated over any pattern list with the mandatory-class property. -/
theorem sanitize_fold_eq_self :
    ∀ (ps : List (String × Pat)) (text : String),
      (∀ cp ∈ ps, PatNeeds piiNeed cp.2) →
      (∀ c ∈ text.data, piiNeed c = false) →
      ps.foldl (fun acc cp => String.mk (subFrom cp.2 (redactionToken cp.1).data none acc.data))
          text = text := by
  intro ps
  induction ps with
  | nil => intro text _ _; rfl
  | cons cp ps ih =>
      intro text hneed hchars
      rw [List.foldl_cons,
        subFrom_eq_self (hneed cp (List.mem_cons_self cp ps)) _ text.data none hchars]
      have hmk : String.mk text.data = text := rfl
      rw [hmk]
      exact ih text (fun cp' h => hneed cp' (List.mem_cons_of_mem cp h)) hchars

theorem sanitize_eq_self {text : String} (h : ∀ c ∈ text.data, piiNeed c = false) :
    sanitize_query text = text :=
  sanitize_fold_eq_self PII_PATTERNS text PII_PATTERNS_need h

/-- No character of any redaction token is a digit or `@`. -/
theorem redactionTokens_clean :
    ∀ t ∈ redactionTokens, ∀ c ∈ t.data, piiNeed c = false := by decide

theorem foldl_append_data :
    ∀ (parts : List String) (acc : String),
      (parts.foldl (· ++ ·) acc).data = acc.data ++ (parts.map String.data).join := by
  intro parts
  induction parts with
  | nil => intro acc; simp
  | cons t ts ih =>
      intro acc
      rw [List.foldl_cons, ih]
      have happ : (acc ++ t).data = acc.data ++ t.data := rfl
      rw [happ]
      simp

/-- C9: sanitization is idempotent on already-sanitized text — a query that
is a concatenation of `[REDACTED_*]` tokens is left unchanged by another
sanitization pass. -/
theorem C9_sanitize_idempotent_on_redacted (parts : List String)
    (hparts : ∀ t ∈ parts, t ∈ redactionTokens) :
    sanitize_query (String.join parts) = String.join parts := by
  apply sanitize_eq_self
  intro c hc
  have hdata : (String.join parts).data = (parts.map String.data).join := by
    rw [String.join, foldl_append_data]
    rfl
  rw [hdata] at hc
  obtain ⟨l, hl, hcl⟩ := List.mem_join.mp hc
  obtain ⟨t, ht, rfl⟩ := List.mem_map.mp hl
  exact redactionTokens_clean t (hparts t ht) c hcl

/-- Witness for C9: a concrete already-sanitized query. -/
theorem C9_sanitize_idempotent_on_redacted_witness :
    sanitize_query (String.join [redactionToken "email", redactionToken "german_ssn"])
      = String.join [redactionToken "email", redactionToken "german_ssn"] :=
  C9_sanitize_idempotent_on_redacted
    [redactionToken "email", redactionToken "german_ssn"] (by decide)

/-- A match at any scan position makes `searchFrom` succeed. -/
theorem searchFrom_complete (pat : Pat) :
    ∀ (s : List Char) (prev : Option Char) (i : Nat), i ≤ s.length →
      (matchPat pat (prevAtFrom prev s i) (s.drop i)).isSome = true →
      searchFrom pat prev s = true := by
  intro s
  induction s with
  | nil =>
      intro prev i hi hm
      have hi0 : i = 0 := Nat.le_zero.mp hi
      subst hi0
      rw [searchFrom]
      simpa [prevAtFrom] using hm
  | cons c t ih =>
      intro prev i hi hm
      cases i with
      | zero =>
          rw [searchFrom]
          simp [prevAtFrom] at hm
          simp [hm]
      | succ j =>
          rw [searchFrom]
          have hj : j ≤ t.length := by simpa using hi
          have hp : prevAtFrom prev (c :: t) (j + 1) = prevAtFrom (some c) t j := by
            cases j with
            | zero => simp [prevAtFrom]
            | succ k => simp [prevAtFrom]
          have hd : (c :: t).drop (j + 1) = t.drop j := rfl
          rw [hp, hd] at hm
          rw [ih (some c) j hj hm]
          simp

/-- A successful pattern search puts the category name in the detected set. -/
theorem detect_pii_mem {name : String} {pat : Pat} {q : String}
    (hmem : (name, pat) ∈ PII_PATTERNS) (hs : searchFrom pat none q.data = true) :
    name ∈ detect_pii q := by
  unfold detect_pii
  refine List.mem_filterMap.mpr ⟨(name, pat), hmem, ?_⟩
  simp [hs]

/-- C3 amended: a query at which one of the five PII patterns matches gets
`pii_detected = true`, the matching category name in the detected set, and
its query overwritten with the sanitized text. (The as-stated further claim
that the original PII substring never occurs in the sanitized output is
refuted by `C3_counterexample`.) -/
theorem C3_detection_fires (q name : String) (pat : Pat)
    (hmem : (name, pat) ∈ PII_PATTERNS) (i : Nat) (hmatch : MatchesAt pat q i) :
    name ∈ detect_pii q
    ∧ (pii_filter_node q).pii_detected = some true
    ∧ (pii_filter_node q).query = some (sanitize_query q) := by
  obtain ⟨hi, hsome⟩ := hmatch
  have hs : searchFrom pat none q.data = true := searchFrom_complete pat q.data none i hi hsome
  have hdet : name ∈ detect_pii q := detect_pii_mem hmem hs
  have hne : ¬ detect_pii q = [] := by
    intro h0
    rw [h0] at hdet
    simp at hdet
  have hq : ¬ q = "" := by
    intro h0
    subst h0
    have hneed := PII_PATTERNS_need (name, pat) hmem
    have hnil : ("" : String).data = [] := rfl
    cases hmm : matchPat pat (prevAtFrom none ("" : String).data i) (("" : String).data.drop i) with
    | none => rw [hmm] at hsome; simp at hsome
    | some r =>
        obtain ⟨c, hc, -⟩ := matchPat_needs pat hneed _ _ r hmm
        rw [hnil] at hc
        simp at hc
  have hempty : (detect_pii q).isEmpty = false := by
    cases hd : detect_pii q with
    | nil => exact absurd hd hne
    | cons x xs => rfl
  refine ⟨hdet, ?_, ?_⟩ <;> simp [pii_filter_node, hq, hempty]

/-- Witness for C3 amended: the email pattern matches at position 8. -/
theorem C3_detection_fires_witness :
    "email" ∈ detect_pii "Contact john.doe@company.com now"
    ∧ (pii_filter_node "Contact john.doe@company.com now").pii_detected = some true
    ∧ (pii_filter_node "Contact john.doe@company.com now").query
        = some (sanitize_query "Contact john.doe@company.com now") :=
  C3_detection_fires "Contact john.doe@company.com now" "email" emailPat
    (by simp [PII_PATTERNS]) 8 ⟨by decide, by decide⟩

/-- Counterexample to C3 as stated: the query contains a recognized
national-insurance-number shape (detected, and the filter fires), yet the
original PII substring "12 123456 A 123" still occurs verbatim in the
sanitized query — its second occurrence sits between word characters, where
the `\b`-anchored pattern cannot match. -/
theorem C3_counterexample :
    MatchesAt ssnPat "12 123456 A 123 and Z12 123456 A 123Z" 0
    ∧ detect_pii "12 123456 A 123 and Z12 123456 A 123Z" = ["german_ssn"]
    ∧ (pii_filter_node "12 123456 A 123 and Z12 123456 A 123Z").pii_detected = some true
    ∧ (pii_filter_node "12 123456 A 123 and Z12 123456 A 123Z").query
        = some "[REDACTED_GERMAN_SSN] and Z12 123456 A 123Z"
    ∧ strOccursIn "12 123456 A 123" "[REDACTED_GERMAN_SSN] and Z12 123456 A 123Z" = true := by
  exact ⟨⟨by decide, by decide⟩, by decide, by decide, by decide, by decide⟩

/-- Counterexample to C7 as stated: application order is the dict insertion
order, not lexicographic by category name — on a 16-digit card number the
two orders produce different sanitized outputs, because the phone pass
(which the insertion order runs before the credit-card pass, while the
lexicographic order runs it last) destroys the card shape first. -/
theorem C7_counterexample :
    sanitize_query "1234 5678 9012 3456" = "[REDACTED_PHONE_INTERNATIONAL] 3456"
    ∧ sanitize_query_lex "1234 5678 9012 3456" = "[REDACTED_CREDIT_CARD]"
    ∧ ¬ sanitize_query "1234 5678 9012 3456" = sanitize_query_lex "1234 5678 9012 3456" := by
  exact ⟨by decide, by decide, by decide⟩

/-- C7 amended: sanitization substitutes every match of every pattern with
its category token, the passes running in the fixed dict insertion order
email, phone_international, credit_card, german_ssn, iban_de — a
deterministic order, so the output is reproducible. -/
theorem C7_sanitize_order (text : String) :
    sanitize_query text
      = String.mk (subFrom ibanPat (redactionToken "iban_de").data none
          (String.mk (subFrom ssnPat (redactionToken "german_ssn").data none
            (String.mk (subFrom ccPat (redactionToken "credit_card").data none
              (String.mk (subFrom phonePat (redactionToken "phone_international").data none
                (String.mk (subFrom emailPat (redactionToken "email").data none
                  text.data)).data)).data)).data)).data) := rfl

/-- C6 amended: an empty query is resolved locally at every stage that
requires one and never escapes as a failure — the Router silently defaults
to "both" (appending no diagnostic), while each agent returns an empty
context plus exactly one diagnostic error. -/
theorem C6_empty_query_local (configured : Bool) (llm : Except String String)
    (dbx : Nat → Except String (List (List String)))
    (az : Nat → Except String (List AzRow)) :
    (router_node configured llm "").route_decision = some "both"
    ∧ (router_node configured llm "").errors = []
    ∧ (DatabricksAgent.databricks_agent_node configured dbx "").context_silo_a = some ""
    ∧ (DatabricksAgent.databricks_agent_node configured dbx "").errors
        = ["Databricks agent received empty query"]
    ∧ (AzureAgent.azure_agent_node configured az "").context_silo_b = some ""
    ∧ (AzureAgent.azure_agent_node configured az "").errors
        = ["Azure agent received empty query"] := by
  refine ⟨?_, ?_, ?_, ?_, ?_, ?_⟩ <;>
    simp [router_node, DatabricksAgent.databricks_agent_node, AzureAgent.azure_agent_node]

/-! ## Graph-level lemmas: only the Router writes `route_decision` -/

theorem pii_route_none (q : String) : (pii_filter_node q).route_decision = none := by
  unfold pii_filter_node
  split
  · rfl
  · dsimp only
    split <;> rfl

theorem dbx_route_none (c : Bool) (b : Nat → Except String (List (List String))) (q : String) :
    (DatabricksAgent.databricks_agent_node c b q).route_decision = none := by
  unfold DatabricksAgent.databricks_agent_node
  split
  · rfl
  · split
    · rfl
    · split <;> rfl

theorem az_route_none (c : Bool) (b : Nat → Except String (List AzRow)) (q : String) :
    (AzureAgent.azure_agent_node c b q).route_decision = none := by
  unfold AzureAgent.azure_agent_node
  split
  · rfl
  · split
    · rfl
    · split <;> rfl

theorem synth_route_none (c : Bool) (llm : Except String String) (q a b : String) :
    (Synthesizer.synthesizer_node c llm q a b).route_decision = none := by
  unfold Synthesizer.synthesizer_node
  split
  · rfl
  · split
    · rfl
    · split <;> rfl

/-- Every node except the Router leaves `route_decision` unchanged. -/
theorem applyNode_keeps_route (env : Env) (t : NodeTag) (s : AgentState)
    (ht : ¬ t = NodeTag.router) : (applyNode env t s).route_decision = s.route_decision := by
  cases t <;> simp_all [applyNode, applyUpdate, pii_route_none, dbx_route_none, az_route_none,
    synth_route_none, Option.orElse]

theorem applyNode_start (env : Env) (s : AgentState) : applyNode env NodeTag.start s = s := rfl

/-- The Router always writes one of the three valid route values. -/
theorem router_sets_route (c : Bool) (llm : Except String String) (q : String) :
    (router_node c llm q).route_decision = some "both"
    ∨ (router_node c llm q).route_decision = some "silo_a"
    ∨ (router_node c llm q).route_decision = some "silo_b" := by
  by_cases hq : q = ""
  · left; simp [router_node, hq]
  · by_cases hc : c = false
    · left; simp [router_node, hq, hc]
    · cases llm with
      | error e => left; simp [router_node, hq, hc]
      | ok content =>
          by_cases hv : VALID_ROUTES.contains (pyLower (pyStrip content)) = false
          · have hnm : pyLower (pyStrip content) ∉ VALID_ROUTES := by simpa using hv
            left; simp [router_node, hq, hc, hnm]
          · have hv' : pyLower (pyStrip content) ∈ VALID_ROUTES := by
              have hvt : VALID_ROUTES.contains (pyLower (pyStrip content)) = true := by
                revert hv
                cases VALID_ROUTES.contains (pyLower (pyStrip content)) <;> simp
              simpa using hvt
            have hr : (router_node c (Except.ok content) q).route_decision
                = some (pyLower (pyStrip content)) := by
              simp [router_node, hq, hc, hv']
            have hv3 : pyLower (pyStrip content) = "silo_a"
                ∨ pyLower (pyStrip content) = "silo_b"
                ∨ pyLower (pyStrip content) = "both" := by
              simpa [VALID_ROUTES] using hv'
            rcases hv3 with he | he | he <;> rw [he] at hr
            · right; left; exact hr
            · right; right; exact hr
            · left; exact hr

/-- After the Router node runs, the merged state's `route_decision` is
exactly the Router's output (the Router always writes the key). -/
theorem applyNode_router_route (env : Env) (s : AgentState) :
    (applyNode env NodeTag.router s).route_decision
      = (router_node env.azure_openai_configured env.router_llm s.query).route_decision := by
  rcases router_sets_route env.azure_openai_configured env.router_llm s.query with h | h | h <;>
    simp [applyNode, applyUpdate, h, Option.orElse]

/-- Explicit trace when the routing decision is "both". -/
theorem run_eq_of_route_both (env : Env) (q : String)
    (h : (applyNode env NodeTag.router (applyNode env NodeTag.pii_filter (initState q))).route_decision
        = some "both") :
    run env q
      = [(NodeTag.start, initState q),
         (NodeTag.pii_filter, applyNode env NodeTag.pii_filter (initState q)),
         (NodeTag.router, applyNode env NodeTag.router (applyNode env NodeTag.pii_filter (initState q))),
         (NodeTag.databricks_agent, applyNode env NodeTag.databricks_agent
           (applyNode env NodeTag.router (applyNode env NodeTag.pii_filter (initState q)))),
         (NodeTag.azure_agent, applyNode env NodeTag.azure_agent
           (applyNode env NodeTag.databricks_agent
             (applyNode env NodeTag.router (applyNode env NodeTag.pii_filter (initState q))))),
         (NodeTag.synthesizer, applyNode env NodeTag.synthesizer
           (applyNode env NodeTag.azure_agent
             (applyNode env NodeTag.databricks_agent
               (applyNode env NodeTag.router (applyNode env NodeTag.pii_filter (initState q)))))),
         (NodeTag.finish, applyNode env NodeTag.synthesizer
           (applyNode env NodeTag.azure_agent
             (applyNode env NodeTag.databricks_agent
               (applyNode env NodeTag.router (applyNode env NodeTag.pii_filter (initState q))))))] := by
  simp [run, runFrom, nextNode, route_decision_edge, post_silo_a_edge, h,
    applyNode_keeps_route, applyNode_start]

/-- Explicit trace when the routing decision is "silo_a". -/
theorem run_eq_of_route_silo_a (env : Env) (q : String)
    (h : (applyNode env NodeTag.router (applyNode env NodeTag.pii_filter (initState q))).route_decision
        = some "silo_a") :
    run env q
      = [(NodeTag.start, initState q),
         (NodeTag.pii_filter, applyNode env NodeTag.pii_filter (initState q)),
         (NodeTag.router, applyNode env NodeTag.router (applyNode env NodeTag.pii_filter (initState q))),
         (NodeTag.databricks_agent, applyNode env NodeTag.databricks_agent
           (applyNode env NodeTag.router (applyNode env NodeTag.pii_filter (initState q)))),
         (NodeTag.synthesizer, applyNode env NodeTag.synthesizer
           (applyNode env NodeTag.databricks_agent
             (applyNode env NodeTag.router (applyNode env NodeTag.pii_filter (initState q))))),
         (NodeTag.finish, applyNode env NodeTag.synthesizer
           (applyNode env NodeTag.databricks_agent
             (applyNode env NodeTag.router (applyNode env NodeTag.pii_filter (initState q)))))] := by
  simp [run, runFrom, nextNode, route_decision_edge, post_silo_a_edge, h,
    applyNode_keeps_route, applyNode_start]

/-- Explicit trace when the routing decision is "silo_b". -/
theorem run_eq_of_route_silo_b (env : Env) (q : String)
    (h : (applyNode env NodeTag.router (applyNode env NodeTag.pii_filter (initState q))).route_decision
        = some "silo_b") :
    run env q
      = [(NodeTag.start, initState q),
         (NodeTag.pii_filter, applyNode env NodeTag.pii_filter (initState q)),
         (NodeTag.router, applyNode env NodeTag.router (applyNode env NodeTag.pii_filter (initState q))),
         (NodeTag.azure_agent, applyNode env NodeTag.azure_agent
           (applyNode env NodeTag.router (applyNode env NodeTag.pii_filter (initState q)))),
         (NodeTag.synthesizer, applyNode env NodeTag.synthesizer
           (applyNode env NodeTag.azure_agent
             (applyNode env NodeTag.router (applyNode env NodeTag.pii_filter (initState q))))),
         (NodeTag.finish, applyNode env NodeTag.synthesizer
           (applyNode env NodeTag.azure_agent
             (applyNode env NodeTag.router (applyNode env NodeTag.pii_filter (initState q)))))] := by
  simp [run, runFrom, nextNode, route_decision_edge, post_silo_a_edge, h,
    applyNode_keeps_route, applyNode_start]

/-- C1: for every environment and query, the pipeline's execution trace
reaches the Synthesizer (no path bypasses it once the Router has run); the
route decision set by the Router is carried unchanged by every later state
(no node after the Router mutates it); and when the decision is "both" the
trace is exactly PII filter, Router, Silo-A agent, Silo-B agent,
Synthesizer, strictly in that sequential order. -/
theorem C1_pipeline_temporal (env : Env) (q : String) :
    (∃ s, (NodeTag.synthesizer, s) ∈ run env q)
    ∧ (∀ pr ∈ run env q, ¬ pr.1 = NodeTag.start → ¬ pr.1 = NodeTag.pii_filter →
        pr.2.route_decision
          = (applyNode env NodeTag.router
              (applyNode env NodeTag.pii_filter (initState q))).route_decision)
    ∧ ((applyNode env NodeTag.router
          (applyNode env NodeTag.pii_filter (initState q))).route_decision = some "both" →
        (run env q).map Prod.fst
          = [NodeTag.start, NodeTag.pii_filter, NodeTag.router, NodeTag.databricks_agent,
             NodeTag.azure_agent, NodeTag.synthesizer, NodeTag.finish]) := by
  have hroute := applyNode_router_route env (applyNode env NodeTag.pii_filter (initState q))
  rcases router_sets_route env.azure_openai_configured env.router_llm
      (applyNode env NodeTag.pii_filter (initState q)).query with h | h | h
  · have hr := hroute.trans h
    rw [run_eq_of_route_both env q hr]
    refine ⟨⟨applyNode env NodeTag.synthesizer
      (applyNode env NodeTag.azure_agent
        (applyNode env NodeTag.databricks_agent
          (applyNode env NodeTag.router (applyNode env NodeTag.pii_filter (initState q))))),
      by simp⟩, ?_, fun _ => by simp⟩
    intro pr hpr hns hnp
    simp only [List.mem_cons, List.not_mem_nil, or_false] at hpr
    rcases hpr with h1 | h1 | h1 | h1 | h1 | h1 | h1 <;> subst h1 <;>
      simp_all [applyNode_keeps_route]
  · have hr := hroute.trans h
    rw [run_eq_of_route_silo_a env q hr]
    refine ⟨⟨applyNode env NodeTag.synthesizer
      (applyNode env NodeTag.databricks_agent
        (applyNode env NodeTag.router (applyNode env NodeTag.pii_filter (initState q)))),
      by simp⟩, ?_, fun hb => by rw [hr] at hb; simp at hb⟩
    intro pr hpr hns hnp
    simp only [List.mem_cons, List.not_mem_nil, or_false] at hpr
    rcases hpr with h1 | h1 | h1 | h1 | h1 | h1 <;> subst h1 <;>
      simp_all [applyNode_keeps_route]
  · have hr := hroute.trans h
    rw [run_eq_of_route_silo_b env q hr]
    refine ⟨⟨applyNode env NodeTag.synthesizer
      (applyNode env NodeTag.azure_agent
        (applyNode env NodeTag.router (applyNode env NodeTag.pii_filter (initState q)))),
      by simp⟩, ?_, fun hb => by rw [hr] at hb; simp at hb⟩
    intro pr hpr hns hnp
    simp only [List.mem_cons, List.not_mem_nil, or_false] at hpr
    rcases hpr with h1 | h1 | h1 | h1 | h1 | h1 <;> subst h1 <;>
      simp_all [applyNode_keeps_route]

/-- Witness for C1: with nothing configured the Router defaults to "both"
and the trace runs both agents then the Synthesizer. -/
theorem C1_pipeline_temporal_witness :
    (∃ s, (NodeTag.synthesizer, s) ∈ run envNothing "What is the architecture?")
    ∧ (run envNothing "What is the architecture?").map Prod.fst
        = [NodeTag.start, NodeTag.pii_filter, NodeTag.router, NodeTag.databricks_agent,
           NodeTag.azure_agent, NodeTag.synthesizer, NodeTag.finish] :=
  ⟨(C1_pipeline_temporal envNothing "What is the architecture?").1,
   (C1_pipeline_temporal envNothing "What is the architecture?").2.2 (by decide)⟩

/-- C10: for a `route_decision` that is neither "silo_a" nor "silo_b"
(missing or arbitrary), the first conditional edge selects the both-silos
path entering the Silo-A agent, while the post-Silo-A edge continues to the
Silo-B agent exactly when the value is "both"; hence an out-of-vocabulary
route value executes only the Silo-A agent and then the Synthesizer. -/
theorem C10_out_of_vocab_route (env : Env) (s : AgentState)
    (h1 : ¬ s.route_decision = some "silo_a") (h2 : ¬ s.route_decision = some "silo_b") :
    route_decision_edge s = "both_silos"
    ∧ nextNode NodeTag.router s = NodeTag.databricks_agent
    ∧ (post_silo_a_edge s = "azure_agent" ↔ s.route_decision = some "both")
    ∧ (¬ s.route_decision = some "both" →
        (runFrom env 4 NodeTag.databricks_agent s).map Prod.fst
          = [NodeTag.databricks_agent, NodeTag.synthesizer, NodeTag.finish]) := by
  have hedge : route_decision_edge s = "both_silos" := by
    rcases hv : s.route_decision with _ | v
    · simp [route_decision_edge, hv]
    · rw [hv] at h1 h2
      have hv1 : ¬ v = "silo_a" := fun hc => h1 (by rw [hc])
      have hv2 : ¬ v = "silo_b" := fun hc => h2 (by rw [hc])
      simp [route_decision_edge, hv, hv1, hv2]
  refine ⟨hedge, ?_, ?_, ?_⟩
  · simp [nextNode, hedge]
  · constructor
    · intro hpost
      by_contra hnb
      simp [post_silo_a_edge, hnb] at hpost
    · intro hb
      simp [post_silo_a_edge, hb]
  · intro hnb
    simp [runFrom, nextNode, post_silo_a_edge, applyNode_keeps_route, hnb]

/-- Witness for C10 at the concrete invalid route value "weird". -/
theorem C10_out_of_vocab_route_witness :
    route_decision_edge invalidRouteState = "both_silos"
    ∧ nextNode NodeTag.router invalidRouteState = NodeTag.databricks_agent
    ∧ (post_silo_a_edge invalidRouteState = "azure_agent"
        ↔ invalidRouteState.route_decision = some "both")
    ∧ (runFrom envNothing 4 NodeTag.databricks_agent invalidRouteState).map Prod.fst
        = [NodeTag.databricks_agent, NodeTag.synthesizer, NodeTag.finish] :=
  have h := C10_out_of_vocab_route envNothing invalidRouteState (by decide) (by decide)
  ⟨h.1, h.2.1, h.2.2.1, h.2.2.2 (by decide)⟩

end LG
